import Mathlib

/- Verification development for the TimeSliderChoropleth widget
   (fp_covid19/visualization/time_slider_choropleth.py).  Two parts are
   embedded: the constructor-side style-table builder (__init__) and the
   client-side slider-driven repaint engine contained in its script
   template (fill_map, the slider input handler, and the mouseover,
   mouseout highlight handlers). -/

namespace TSC

/-- A Python value, to the depth the constructor validation inspects it:
dictionaries (as key/value lists in insertion order), strings and numbers. -/
inductive PyVal where
  | pdict : List (String × PyVal) → PyVal
  | pstr : String → PyVal
  | pnum : Int → PyVal

/-- isinstance(v, dict). -/
def isDict : PyVal → Bool
  | .pdict _ => true
  | _ => false

mutual

/-- Python repr of a value, as interpolated into the error messages. -/
def pyRepr : PyVal → String
  | .pdict l => "\x7b" ++ pyReprEntries l ++ "\x7d"
  | .pstr s => "\x27" ++ s ++ "\x27"
  | .pnum n => toString n

/-- Comma-separated repr of the entries of a Python dict. -/
def pyReprEntries : List (String × PyVal) → String
  | [] => ""
  | [(k, v)] => "\x27" ++ k ++ "\x27: " ++ pyRepr v
  | (k, v) :: q :: rest =>
      "\x27" ++ k ++ "\x27: " ++ pyRepr v ++ ", " ++ pyReprEntries (q :: rest)

end

/-- The loop over styledict.values() raising on the first value that is not
a dict (lines 149-151 of the source). -/
def checkValues : List (String × PyVal) → Except String Unit
  | [] => .ok ()
  | (_, v) :: rest =>
    if isDict v then checkValues rest
    else .error ("Each item in styledict must be a dictionary, got " ++ pyRepr v)

/-- The entries of a Python dict value; values already checked by
checkValues are always pdict, so the default branch is unreachable there. -/
def asDict : PyVal → List (String × PyVal)
  | .pdict l => l
  | _ => []

/-- View of a validated styledict as feature id to timestamp table. -/
def typedStyledict (entries : List (String × PyVal)) :
    List (String × List (String × PyVal)) :=
  entries.map fun p => (p.1, asDict p.2)

/-- Structural decision procedure for the lexicographic order on character
lists, used so that concrete runs of the builder reduce inside the kernel;
its value agrees with any other Decidable instance of the same proposition. -/
def decLex : (x y : List Char) → Decidable (List.Lex (· < ·) x y)
  | _, [] => isFalse fun h => nomatch h
  | [], _ :: _ => isTrue .nil
  | c :: cs, d :: ds =>
    if hcd : c = d then
      match decLex cs ds with
      | isTrue h => isTrue (hcd ▸ .cons h)
      | isFalse h => isFalse (by
          subst hcd
          intro hl
          cases hl with
          | cons h2 => exact h h2
          | rel h2 => exact absurd h2 (lt_irrefl c))
    else
      if hlt : c.toNat < d.toNat then isTrue (.rel hlt)
      else isFalse (by
          intro hl
          cases hl with
          | cons _ => exact hcd rfl
          | rel h2 => exact hlt h2)

/-- Kernel-computable decidability of the String order, via decLex and the
library equivalence of the String order with the list order on the data. -/
def strDecLE : DecidableRel (fun a b : String => a ≤ b) :=
  fun a b =>
    @instDecidableNot _ (@decidable_of_iff _ _ String.lt_iff_toList_lt.symm (decLex b.data a.data))

/-- Lines 153-157 of the source: collect the timestamp keys of every
feature into a set and sort them.  Python sorted on strings is the
lexicographic order on code points, which is the order of the LinearOrder
instance on String used here. -/
def deriveTimestamps {α : Type} (sd : List (String × List (String × α))) :
    List String :=
  @List.insertionSort String (fun a b => a ≤ b) strDecLE
    ((sd.map fun p => p.2.map Prod.fst).flatten.dedup)

/-- Message of the assert on lines 163-166 of the source. -/
def errNonneg (i : Int) (n : Nat) : String :=
  "init_timestamp_index cannot be " ++ toString i ++
    " since it is greater than the number of timestamps, which is " ++
    toString n ++ "."

/-- Message of the assert on lines 168-171 of the source. -/
def errNeg (i : Int) : String :=
  "When init_timestamp_index is negative, it must be in the range \x60[-len(timestamps), -1]\x60 but got " ++
    toString i ++ " instead."

/-- The two asserts guarding init_timestamp_index (lines 162-171). -/
def validateInitIndex (i : Int) (n : Nat) : Except String Unit :=
  if 0 ≤ i then
    if i < (n : Int) then .ok () else .error (errNonneg i n)
  else
    if -(n : Int) ≤ i then .ok () else .error (errNeg i)

/-- The fields of the constructed widget that the claims are about. -/
structure Widget where
  timestamps : List String
  styledict : List (String × PyVal)
  init_timestamp_index : Int

/-- TimeSliderChoropleth.__init__, restricted to its handling of styledict
and init_timestamp_index: validate the two dict levels, derive the
timestamp axis, validate the initial index.  Each raise of the Python code
becomes an error value carrying the same message. -/
def build (styledict : PyVal) (i : Int) : Except String Widget :=
  match styledict with
  | .pdict entries =>
    match checkValues entries with
    | .error e => .error e
    | .ok _ =>
      let ts := deriveTimestamps (typedStyledict entries)
      match validateInitIndex i ts.length with
      | .error e => .error e
      | .ok _ => .ok ⟨ts, entries, i⟩
  | v => .error ("styledict must be a dictionary, got " ++ pyRepr v)

/-- Index resolution performed by the script template (lines 42-46):
timestamps[i] when i is nonnegative, timestamps[timestamps.length + i]
otherwise. -/
def resolvedIdx (i : Int) (n : Nat) : Int :=
  if 0 ≤ i then i else (n : Int) + i

/-- One style entry of the table: fill color and fill opacity. -/
structure StyleEntry where
  color : String
  opacity : ℚ
deriving DecidableEq

/-- The client-side style table: feature id to timestamp to entry. -/
abbrev StyleDict := List (String × List (String × StyleEntry))

/-- Rendered fill state of one feature: the fill attribute (none while the
code has never set it) and the effective fill-opacity.  The baseline sets
the fill-opacity attribute and the handlers set the fill-opacity style;
since a set style wins over the attribute and every later write goes
through the style, one effective value models both. -/
structure RStyle where
  fill : Option String
  fillOpacity : ℚ
deriving DecidableEq

/-- Rendered style of every feature, by feature id. -/
abbrev RenderState := String → RStyle

/-- Client-side mutable state: the current timestamp string
(current_timestamp in the script) and the rendered styles. -/
structure EngineState where
  curTs : String
  render : RenderState

/-- Baseline paint of lines 131-135: fill-opacity 0 on every path, fill
attribute not set. -/
def baseRender : RenderState := fun _ => ⟨none, 0⟩

/-- fill_map of lines 70-83.  The d3 paint call sits inside the presence
guard, so a feature with no entry at the current timestamp keeps whatever
rendered style it already had; the initializers of lines 73-74 (fillColor
white, opacity 0) are dead stores, never applied to any feature. -/
def fill_map (sd : StyleDict) (cur : String) (r : RenderState) : RenderState :=
  sd.foldl (fun acc p =>
    match p.2.lookup cur with
    | some e => fun fid => if fid = p.1 then ⟨some e.color, e.opacity⟩ else acc fid
    | none => acc) r

/-- Slider input handler of lines 85-90: set current_timestamp from the
slider value and run a full repaint. -/
def sliderInput (ts : List String) (sd : StyleDict) (v : Nat)
    (s : EngineState) : EngineState :=
  ⟨ts.getD v "", fill_map sd (ts.getD v "") s.render⟩

/-- mouseout handler of lines 95-100: when the feature has an entry at the
current timestamp, set its fill-opacity style to that entry opacity;
otherwise the guard fails and nothing is written. -/
def mouseout (sd : StyleDict) (fid : String) (s : EngineState) : EngineState :=
  match sd.lookup fid with
  | some fstyle =>
    match fstyle.lookup s.curTs with
    | some e =>
        ⟨s.curTs, fun x => if x = fid then ⟨(s.render fid).fill, e.opacity⟩ else s.render x⟩
    | none => s
  | none => s

/-- mouseover handler of lines 101-105: when the feature has an entry at
the current timestamp, set its fill-opacity style to 1; otherwise the
guard fails and nothing is written. -/
def mouseover (sd : StyleDict) (fid : String) (s : EngineState) : EngineState :=
  match sd.lookup fid with
  | some fstyle =>
    if (fstyle.lookup s.curTs).isSome then
      ⟨s.curTs, fun x => if x = fid then ⟨(s.render fid).fill, 1⟩ else s.render x⟩
    else s
  | none => s

/-- Attributes placed on the emitted range input (lines 49-57). -/
structure SliderAttrs where
  minA : Nat
  maxA : Int
  value : String
  step : String
deriving DecidableEq

/-- The range input as emitted: min 0, max timestamps.length - 1, step "1",
and value set to current_timestamp, the timestamp string selected by the
resolved initial index (line 54). -/
def sliderAttrs (ts : List String) (i : Int) : SliderAttrs :=
  ⟨0, (ts.length : Int) - 1, ts.getD (resolvedIdx i ts.length).toNat "", "1"⟩

/-- The style table of testable property 4 of the spec. -/
def exampleSd : StyleDict :=
  [("A", [("100", ⟨"red", 1/2⟩)]), ("B", [("200", ⟨"blue", 4/5⟩)])]

/-- Its derived timestamp axis. -/
def exampleTs : List String := deriveTimestamps exampleSd

/-- Claim C1: the spec states that a repaint paints a feature with no entry
at the current timestamp white with opacity 0.  The code does not: the
paint call is inside the presence guard, so the feature keeps its stale
style.  Evaluated at the failing input of the spec example: slider input
at index 0 then at index 1 leaves feature A at red, opacity 1/2, not
white, opacity 0. -/
theorem c1_fill_map_keeps_stale_style :
    (sliderInput exampleTs exampleSd 1
        (sliderInput exampleTs exampleSd 0 ⟨"", baseRender⟩)).render "A"
      = ⟨some "red", 1/2⟩ ∧
    (sliderInput exampleTs exampleSd 1
        (sliderInput exampleTs exampleSd 0 ⟨"", baseRender⟩)).render "A"
      ≠ ⟨some "white", 0⟩ := by
  refine ⟨rfl, ?_⟩
  rw [show (sliderInput exampleTs exampleSd 1
      (sliderInput exampleTs exampleSd 0 ⟨"", baseRender⟩)).render "A"
      = ⟨some "red", 1/2⟩ from rfl]
  simp

/-- Claim C5: the spec states that slider inputs at indices 0, 1, 0 leave
every feature as a single input at index 0 would.  Because the repaint
keeps stale styles (Claim C1), feature B ends at blue, opacity 4/5 after
the round trip but at its baseline after a single input at index 0. -/
theorem c5_slider_roundtrip_drifts :
    (sliderInput exampleTs exampleSd 0 (sliderInput exampleTs exampleSd 1
        (sliderInput exampleTs exampleSd 0 ⟨"", baseRender⟩))).render "B"
      = ⟨some "blue", 4/5⟩ ∧
    (sliderInput exampleTs exampleSd 0 ⟨"", baseRender⟩).render "B" = ⟨none, 0⟩ ∧
    (sliderInput exampleTs exampleSd 0 (sliderInput exampleTs exampleSd 1
        (sliderInput exampleTs exampleSd 0 ⟨"", baseRender⟩))).render "B"
      ≠ (sliderInput exampleTs exampleSd 0 ⟨"", baseRender⟩).render "B" := by
  refine ⟨rfl, rfl, ?_⟩
  rw [show (sliderInput exampleTs exampleSd 0 (sliderInput exampleTs exampleSd 1
      (sliderInput exampleTs exampleSd 0 ⟨"", baseRender⟩))).render "B"
      = ⟨some "blue", 4/5⟩ from rfl]
  rw [show (sliderInput exampleTs exampleSd 0 ⟨"", baseRender⟩).render "B"
      = ⟨none, 0⟩ from rfl]
  simp

/-- Claim C4: the emitted range input has min 0, max len - 1 and step 1 as
claimed, but its value attribute is current_timestamp, the timestamp
string at the resolved index, not the resolved index itself.  At the spec
example with initial index 0 the emitted value is the string 100 while the
resolved index renders as the string 0. -/
theorem c4_slider_value_is_timestamp_not_index :
    sliderAttrs exampleTs 0 = ⟨0, 1, "100", "1"⟩ ∧
    (sliderAttrs exampleTs 0).value ≠ toString (resolvedIdx 0 exampleTs.length) := by
  exact ⟨rfl, by decide⟩

/-- Claim C2, counterexample: hover feature A at index 0, move the slider
to index 1 (timestamp 200, at which A has no entry), then leave.  The
claim says leaving restores A to opacity 0; the code leaves the hover
opacity 1 in place because the mouseout write is inside the presence
guard. -/
theorem c2_mouseout_counterexample :
    ((mouseout exampleSd "A" (sliderInput exampleTs exampleSd 1 (mouseover exampleSd "A"
        (sliderInput exampleTs exampleSd 0 ⟨"", baseRender⟩)))).render "A").fillOpacity = 1 ∧
    ((mouseout exampleSd "A" (sliderInput exampleTs exampleSd 1 (mouseover exampleSd "A"
        (sliderInput exampleTs exampleSd 0 ⟨"", baseRender⟩)))).render "A").fillOpacity ≠ 0 := by
  refine ⟨rfl, ?_⟩
  rw [show ((mouseout exampleSd "A" (sliderInput exampleTs exampleSd 1 (mouseover exampleSd "A"
      (sliderInput exampleTs exampleSd 0 ⟨"", baseRender⟩)))).render "A").fillOpacity
      = 1 from rfl]
  exact one_ne_zero

/-- Claim C2, amended: on pointer-leave the handler sets the feature's
fill-opacity to the opacity of its StyleDict entry at the timestamp
current at leave time when such an entry exists; when the feature has no
entry at that timestamp it leaves the rendered style unchanged, so the
hover opacity is retained.  It never changes the current timestamp or the
rendered style of any other feature. -/
theorem c2_mouseout_restores_current_entry
    (sd : StyleDict) (fid : String) (s : EngineState)
    (fstyle : List (String × StyleEntry)) (hf : sd.lookup fid = some fstyle) :
    (∀ e, fstyle.lookup s.curTs = some e →
        (mouseout sd fid s).render fid = ⟨(s.render fid).fill, e.opacity⟩) ∧
    (fstyle.lookup s.curTs = none → mouseout sd fid s = s) ∧
    (∀ x, x ≠ fid → (mouseout sd fid s).render x = s.render x) ∧
    (mouseout sd fid s).curTs = s.curTs := by
  cases hc : fstyle.lookup s.curTs with
  | some e =>
    refine ⟨?_, ?_, ?_, ?_⟩
    · intro e2 he2
      cases he2
      simp [mouseout, hf, hc]
    · intro h
      exact Option.noConfusion h
    · intro x hx
      simp [mouseout, hf, hc, hx]
    · simp [mouseout, hf, hc]
  | none =>
    refine ⟨?_, ?_, ?_, ?_⟩
    · intro e2 he2
      exact Option.noConfusion he2
    · intro _
      simp [mouseout, hf, hc]
    · intro x _
      simp [mouseout, hf, hc]
    · simp [mouseout, hf, hc]

/-- Witness for the amended Claim C2 theorem at a concrete input: at index
0 the entry of feature A is present, so leaving restores opacity 1/2. -/
theorem c2_mouseout_restores_current_entry_witness :
    (mouseout exampleSd "A" (mouseover exampleSd "A"
        (sliderInput exampleTs exampleSd 0 ⟨"", baseRender⟩))).render "A"
      = ⟨some "red", 1/2⟩ := by
  have h := c2_mouseout_restores_current_entry exampleSd "A"
    (mouseover exampleSd "A" (sliderInput exampleTs exampleSd 0 ⟨"", baseRender⟩))
    [("100", ⟨"red", 1/2⟩)] rfl
  have h2 := h.1 ⟨"red", 1/2⟩ rfl
  rw [h2]
  rfl

/-- Claim C3, counterexample: the claim says pointer-enter forces opacity
1 regardless of the table entry.  Hovering feature B at index 0, where B
has no entry, the code's guard fails and the opacity stays 0. -/
theorem c3_mouseover_counterexample :
    ((mouseover exampleSd "B" (sliderInput exampleTs exampleSd 0
        ⟨"", baseRender⟩)).render "B").fillOpacity = 0 ∧
    ((mouseover exampleSd "B" (sliderInput exampleTs exampleSd 0
        ⟨"", baseRender⟩)).render "B").fillOpacity ≠ 1 := by
  refine ⟨rfl, ?_⟩
  rw [show ((mouseover exampleSd "B" (sliderInput exampleTs exampleSd 0
      ⟨"", baseRender⟩)).render "B").fillOpacity = 0 from rfl]
  exact zero_ne_one

/-- Claim C3, amended: on pointer-enter the handler sets the feature's
fill-opacity to 1 when the feature has a StyleDict entry at the current
timestamp, and leaves the rendered state unchanged when it has none.  It
never changes the current timestamp or the rendered style of any other
feature. -/
theorem c3_mouseover_highlights_when_entry_present
    (sd : StyleDict) (fid : String) (s : EngineState)
    (fstyle : List (String × StyleEntry)) (hf : sd.lookup fid = some fstyle) :
    ((fstyle.lookup s.curTs).isSome = true →
        (mouseover sd fid s).render fid = ⟨(s.render fid).fill, 1⟩) ∧
    ((fstyle.lookup s.curTs).isSome = false → mouseover sd fid s = s) ∧
    (∀ x, x ≠ fid → (mouseover sd fid s).render x = s.render x) ∧
    (mouseover sd fid s).curTs = s.curTs := by
  cases hc : (fstyle.lookup s.curTs).isSome with
  | true =>
    refine ⟨?_, ?_, ?_, ?_⟩
    · intro _
      simp [mouseover, hf, hc]
    · intro h
      exact Bool.noConfusion h
    · intro x hx
      simp [mouseover, hf, hc, hx]
    · simp [mouseover, hf, hc]
  | false =>
    refine ⟨?_, ?_, ?_, ?_⟩
    · intro h
      exact Bool.noConfusion h
    · intro _
      simp [mouseover, hf, hc]
    · intro x _
      simp [mouseover, hf, hc]
    · simp [mouseover, hf, hc]

/-- Witness for the amended Claim C3 theorem at a concrete input: hovering
feature A at index 0, where its entry is present, sets opacity 1. -/
theorem c3_mouseover_highlights_witness :
    (mouseover exampleSd "A" (sliderInput exampleTs exampleSd 0
        ⟨"", baseRender⟩)).render "A" = ⟨some "red", 1⟩ := by
  have h := c3_mouseover_highlights_when_entry_present exampleSd "A"
    (sliderInput exampleTs exampleSd 0 ⟨"", baseRender⟩)
    [("100", ⟨"red", 1/2⟩)] rfl
  have h2 := h.1 rfl
  rw [h2]
  rfl

/-- The derived axis is sorted in the String order. -/
theorem sorted_deriveTimestamps {α : Type} (sd : List (String × List (String × α))) :
    (deriveTimestamps sd).Sorted (fun a b => a ≤ b) :=
  @List.sorted_insertionSort String (fun a b => a ≤ b) strDecLE inferInstance inferInstance _

/-- The derived axis has no duplicates. -/
theorem nodup_deriveTimestamps {α : Type} (sd : List (String × List (String × α))) :
    (deriveTimestamps sd).Nodup :=
  ((@List.perm_insertionSort String (fun a b => a ≤ b) strDecLE _).nodup_iff).mpr
    (List.nodup_dedup _)

/-- Membership in the derived axis is membership in some feature's key set. -/
theorem mem_deriveTimestamps {α : Type} (sd : List (String × List (String × α)))
    (x : String) :
    x ∈ deriveTimestamps sd ↔ ∃ p ∈ sd, x ∈ p.2.map Prod.fst := by
  unfold deriveTimestamps
  rw [(@List.perm_insertionSort String (fun a b => a ≤ b) strDecLE _).mem_iff,
    List.mem_dedup, List.mem_flatten]
  constructor
  · rintro ⟨l, hl, hx⟩
    rcases List.mem_map.1 hl with ⟨p, hp, rfl⟩
    exact ⟨p, hp, hx⟩
  · rintro ⟨p, hp, hx⟩
    exact ⟨p.2.map Prod.fst, List.mem_map_of_mem _ hp, hx⟩

/-- The derived axis only depends on the styledict up to permutation of
its features. -/
theorem deriveTimestamps_perm_invariant {α : Type}
    {sd sd' : List (String × List (String × α))} (h : sd.Perm sd') :
    deriveTimestamps sd = deriveTimestamps sd' := by
  apply List.eq_of_perm_of_sorted ?_ (sorted_deriveTimestamps sd) (sorted_deriveTimestamps sd')
  rw [List.perm_ext_iff_of_nodup (nodup_deriveTimestamps sd) (nodup_deriveTimestamps sd')]
  intro x
  rw [mem_deriveTimestamps, mem_deriveTimestamps]
  constructor
  · rintro ⟨p, hp, hx⟩
    exact ⟨p, h.subset hp, hx⟩
  · rintro ⟨p, hp, hx⟩
    exact ⟨p, h.symm.subset hp, hx⟩

/-- Claim C6: the derived timestamp axis is the deduplicated union of all
per-feature timestamp keys, sorted ascending in the plain String order,
and does not depend on the order in which features appear.  The closing
conjunct shows the order is lexicographic, not numeric: the axis of keys
9 and 10 is 10 before 9. -/
theorem c6_timestamp_axis (sd sd' : StyleDict) (h : sd.Perm sd') :
    (deriveTimestamps sd).Sorted (fun a b => a ≤ b) ∧
    (deriveTimestamps sd).Nodup ∧
    (∀ x, x ∈ deriveTimestamps sd ↔ ∃ p ∈ sd, x ∈ p.2.map Prod.fst) ∧
    deriveTimestamps sd = deriveTimestamps sd' ∧
    deriveTimestamps
        [("A", [("9", (⟨"c", 0⟩ : StyleEntry)), ("10", ⟨"c", 0⟩)])] = ["10", "9"] :=
  ⟨sorted_deriveTimestamps sd, nodup_deriveTimestamps sd, mem_deriveTimestamps sd,
    deriveTimestamps_perm_invariant h, rfl⟩

/-- Witness for Claim C6 at a concrete input: swapping the two features of
the example styledict leaves the derived axis unchanged. -/
theorem c6_timestamp_axis_witness :
    deriveTimestamps [("B", [("200", (⟨"blue", 4/5⟩ : StyleEntry))]),
        ("A", [("100", ⟨"red", 1/2⟩)])] = deriveTimestamps exampleSd := by
  have h := c6_timestamp_axis
    [("B", [("200", (⟨"blue", 4/5⟩ : StyleEntry))]), ("A", [("100", ⟨"red", 1/2⟩)])]
    exampleSd (List.Perm.swap _ _ _)
  exact h.2.2.2.1

/-- Claim C7: for an init index accepted by the builder the resolved index
is in range, index 0 resolves to position 0, index -1 to the last
position, and in general a negative index -k resolves to position
len - k. -/
theorem c7_resolve_init_index (ts : List String) (i : Int)
    (_hne : ts ≠ [])
    (hok : validateInitIndex i ts.length = .ok ()) :
    0 ≤ resolvedIdx i ts.length ∧ resolvedIdx i ts.length < (ts.length : Int) ∧
    (i = 0 → resolvedIdx i ts.length = 0) ∧
    (i = -1 → resolvedIdx i ts.length = (ts.length : Int) - 1) ∧
    (∀ k : Nat, 1 ≤ k → (k : Int) ≤ (ts.length : Int) → i = -(k : Int) →
      resolvedIdx i ts.length = (ts.length : Int) - (k : Int)) := by
  have hr : (0 ≤ i ∧ i < (ts.length : Int)) ∨ (i < 0 ∧ -(ts.length : Int) ≤ i) := by
    unfold validateInitIndex at hok
    split_ifs at hok with h1 h2 h3
    · exact Or.inl ⟨h1, h2⟩
    · exact Or.inr ⟨by omega, h3⟩
  unfold resolvedIdx
  rcases hr with ⟨h1, h2⟩ | ⟨h1, h2⟩
  · rw [if_pos h1]
    refine ⟨h1, h2, fun h => h, fun h => by omega, fun k hk1 hk2 hk3 => by omega⟩
  · rw [if_neg (by omega)]
    refine ⟨by omega, by omega, fun h => by omega, fun h => by omega,
      fun k hk1 hk2 hk3 => by omega⟩

/-- Witness for Claim C7 at concrete inputs: on the two-element example
axis, index 0 resolves to 0 and index -1 resolves to 1. -/
theorem c7_resolve_init_index_witness :
    resolvedIdx 0 exampleTs.length = 0 ∧ resolvedIdx (-1) exampleTs.length = 1 := by
  have h0 := c7_resolve_init_index exampleTs 0 (by decide) rfl
  have h1 := c7_resolve_init_index exampleTs (-1) (by decide)
    (show validateInitIndex (-1) (2 : Nat) = .ok () from rfl)
  exact ⟨h0.2.2.1 rfl, by have := h1.2.2.2.1 rfl; simpa using this⟩

/-- Claim C8: construction fails whenever the initial index is at least
the axis length or below minus the axis length; the non-negative message
carries the provided value and the number of timestamps, the negative
message carries the provided value and the valid range. -/
theorem c8_out_of_range_index_fails (i : Int) (n : Nat)
    (h : (n : Int) ≤ i ∨ i < -(n : Int)) :
    (∃ msg, validateInitIndex i n = .error msg) ∧
    ((n : Int) ≤ i → validateInitIndex i n = .error (errNonneg i n)) ∧
    (i < -(n : Int) → validateInitIndex i n = .error (errNeg i)) ∧
    (∃ a b, errNonneg i n = a ++ toString i ++ b) ∧
    (∃ a b, errNonneg i n = a ++ toString n ++ b) ∧
    (∃ a b, errNeg i = a ++ toString i ++ b) ∧
    (∃ a b, errNeg i = a ++ "[-len(timestamps), -1]" ++ b) := by
  have himp1 : (n : Int) ≤ i → validateInitIndex i n = .error (errNonneg i n) := by
    intro hge
    unfold validateInitIndex
    rw [if_pos (by omega), if_neg (by omega)]
  have himp2 : i < -(n : Int) → validateInitIndex i n = .error (errNeg i) := by
    intro hlt
    unfold validateInitIndex
    rw [if_neg (by omega), if_neg (by omega)]
  refine ⟨?_, himp1, himp2, ?_, ?_, ?_, ?_⟩
  · rcases h with h | h
    · exact ⟨_, himp1 h⟩
    · exact ⟨_, himp2 h⟩
  · exact ⟨"init_timestamp_index cannot be ",
      " since it is greater than the number of timestamps, which is " ++ toString n ++ ".",
      by unfold errNonneg; simp [String.append_assoc]⟩
  · exact ⟨"init_timestamp_index cannot be " ++ toString i ++
      " since it is greater than the number of timestamps, which is ", ".", rfl⟩
  · exact ⟨"When init_timestamp_index is negative, it must be in the range \x60[-len(timestamps), -1]\x60 but got ",
      " instead.", rfl⟩
  · refine ⟨"When init_timestamp_index is negative, it must be in the range \x60",
      "\x60 but got " ++ toString i ++ " instead.", ?_⟩
    unfold errNeg
    rw [show ("When init_timestamp_index is negative, it must be in the range \x60[-len(timestamps), -1]\x60 but got " : String)
        = "When init_timestamp_index is negative, it must be in the range \x60" ++
          "[-len(timestamps), -1]" ++ "\x60 but got " from by decide]
    simp only [String.append_assoc]

/-- Witness for Claim C8 at concrete inputs: on an axis of length 2, index
2 (one past the end) and index -3 (one below the start) both fail. -/
theorem c8_out_of_range_index_fails_witness :
    validateInitIndex 2 2 = .error (errNonneg 2 2) ∧
    validateInitIndex (-3) 2 = .error (errNeg (-3)) := by
  have h1 := c8_out_of_range_index_fails 2 2 (Or.inl (by decide))
  have h2 := c8_out_of_range_index_fails (-3) 2 (Or.inr (by decide))
  exact ⟨h1.2.1 (by decide), h2.2.2.1 (by decide)⟩

/-- The loop over styledict.values() raises at the first non-dict value. -/
theorem checkValues_append_error (pre post : List (String × PyVal)) (k : String)
    (w : PyVal) (hpre : ∀ q ∈ pre, isDict q.2 = true) (hw : isDict w = false) :
    checkValues (pre ++ (k, w) :: post) =
      .error ("Each item in styledict must be a dictionary, got " ++ pyRepr w) := by
  induction pre with
  | nil => simp [checkValues, hw]
  | cons q rest ih =>
    obtain ⟨k1, v1⟩ := q
    have hq : isDict v1 = true := hpre (k1, v1) (by simp)
    simp only [List.cons_append, checkValues, hq, if_true]
    exact ih fun r hr => hpre r (List.mem_cons_of_mem _ hr)

/-- Claim C9: a styledict that is not a dict, or has a per-feature value
that is not a dict, fails construction with the corresponding message
naming the offending value, for every initial index; the error is the
validation error, produced before the timestamp axis is derived (in build,
derivation is only reachable from the ok branch of the validation). -/
theorem c9_styledict_validation (v : PyVal) (i : Int)
    (pre post : List (String × PyVal)) (k : String) (w : PyVal)
    (hv : isDict v = false)
    (hpre : ∀ q ∈ pre, isDict q.2 = true)
    (hw : isDict w = false) :
    build v i = .error ("styledict must be a dictionary, got " ++ pyRepr v) ∧
    build (.pdict (pre ++ (k, w) :: post)) i =
      .error ("Each item in styledict must be a dictionary, got " ++ pyRepr w) := by
  constructor
  · cases v with
    | pdict l => exact absurd hv (by simp [isDict])
    | pstr s => rfl
    | pnum m => rfl
  · have hc := checkValues_append_error pre post k w hpre hw
    simp [build, hc]

/-- Witness for Claim C9 at concrete inputs: a string styledict fails, and
a styledict mapping feature B directly to the string red fails naming that
string. -/
theorem c9_styledict_validation_witness :
    build (.pstr "nope") 0 =
      .error ("styledict must be a dictionary, got " ++ pyRepr (.pstr "nope")) ∧
    build (.pdict [("A", .pdict []), ("B", .pstr "red")]) 0 =
      .error ("Each item in styledict must be a dictionary, got " ++ pyRepr (.pstr "red")) := by
  have h := c9_styledict_validation (.pstr "nope") 0 [("A", .pdict [])] [] "B"
    (.pstr "red") rfl
    (by intro q hq; rw [List.mem_singleton] at hq; subst hq; rfl) rfl
  exact ⟨h.1, h.2⟩

/-- Claim C10: an empty styledict yields an empty timestamp axis, and then
construction fails for every initial index: a non-negative index fails the
upper-bound check against length 0 and a negative index fails the
lower-bound check, so the degenerate empty widget can never be built. -/
theorem c10_empty_styledict_never_constructs (i : Int) :
    deriveTimestamps (typedStyledict ([] : List (String × PyVal))) = [] ∧
    build (.pdict []) i = .error (if 0 ≤ i then errNonneg i 0 else errNeg i) := by
  refine ⟨rfl, ?_⟩
  have hv : validateInitIndex i
      (deriveTimestamps (typedStyledict ([] : List (String × PyVal)))).length
      = .error (if 0 ≤ i then errNonneg i 0 else errNeg i) := by
    rw [show (deriveTimestamps (typedStyledict ([] : List (String × PyVal)))).length
      = 0 from rfl]
    unfold validateInitIndex
    split_ifs with h1 h2 h3 <;> first | rfl | omega
  simp only [build, checkValues]
  rw [hv]

end TSC
